import Mathlib

/-
Verification of src/src/Utils/createAnimatedWrapper.js (FluidTransitions).

The module is a pure transformation from a component descriptor and style
inputs to a three-layer wrapped component tree. We embed the JavaScript
values that flow through it as an inductive type JSVal, association lists
standing for plain JS objects (unique keys, insertion order), and translate
each source function line by line. StyleSheet.flatten is an external
collaborator of the module (it is only reached for non-object style inputs,
which the spec declares a precondition violation); it is passed in as an
explicit function parameter sheetFlatten.
-/

set_option autoImplicit false
set_option maxRecDepth 100000

namespace FluidTransitions

/-- JSVal models the JavaScript values handled by createAnimatedWrapper:
undefined, null, booleans, numbers (we only need integers; NaN never arises
as a style value in the claims), strings, arrays and plain objects. Objects
are association lists in insertion order with unique keys. -/
inductive JSVal where
  | undefined
  | null
  | bool (b : Bool)
  | num (n : Int)
  | str (s : String)
  | arr (elems : List JSVal)
  | obj (fields : List (String × JSVal))

/-- Truthiness of a JSVal, as used by the `if (s)`, `||` and `!styles`
tests in the source. -/
def truthy : JSVal → Bool
  | .undefined => false
  | .null => false
  | .bool b => b
  | .num n => n != 0
  | .str s => !s.isEmpty
  | .arr _ => true
  | .obj _ => true

/-- The `styles instanceof Object` test of line 111: arrays and plain
objects are Objects, primitives are not. -/
def isJsObject : JSVal → Bool
  | .arr _ => true
  | .obj _ => true
  | _ => false

/-- Whitespace characters trimmed by the JS number conversions (the common
ASCII ones; exotic unicode spaces never occur in style keys). -/
def isWS (c : Char) : Bool :=
  c == ' ' || c == '\t' || c == '\n' || c == '\r' || c == '\x0b' || c == '\x0c'

/-- Trimmed character list of a string, as the JS ToNumber and parseFloat
conversions see it. -/
def jsTrimChars (s : String) : List Char :=
  ((s.data.dropWhile isWS).reverse.dropWhile isWS).reverse

/-- Drop one optional leading sign. -/
def dropSign : List Char → List Char
  | '+' :: r => r
  | '-' :: r => r
  | l => l

/-- Matches a leading literal Infinity. -/
def startsWithInfinity : List Char → Bool
  | 'I' :: 'n' :: 'f' :: 'i' :: 'n' :: 'i' :: 't' :: 'y' :: _ => true
  | _ => false

/-- Whether the first character exists and is a decimal digit. -/
def headIsDigit : List Char → Bool
  | c :: _ => c.isDigit
  | [] => false

/-- Whether `parseFloat(s)` yields a number rather than NaN: after trimming
and an optional sign, the input must begin with a digit, a dot followed by a
digit, or Infinity. -/
def parseFloatNotNaN (s : String) : Bool :=
  let l := dropSign (jsTrimChars s)
  headIsDigit l ||
    (match l with
     | '.' :: r => headIsDigit r
     | _ => false) ||
    startsWithInfinity l

/-- Nonempty all-digit sequence. -/
def isDigits (l : List Char) : Bool := !l.isEmpty && l.all Char.isDigit

/-- Valid (possibly empty) exponent part of a decimal literal. -/
def expPartOk : List Char → Bool
  | [] => true
  | c :: r => (c == 'e' || c == 'E') && isDigits (dropSign r)

/-- Full decimal literal as accepted by the JS string-to-number conversion:
digits with optional fraction and exponent, or a fraction starting with a
dot. -/
def decLiteralOk (l : List Char) : Bool :=
  match l with
  | '.' :: r => headIsDigit r && expPartOk (r.dropWhile Char.isDigit)
  | _ =>
    headIsDigit l &&
      (match l.dropWhile Char.isDigit with
       | '.' :: r => expPartOk (r.dropWhile Char.isDigit)
       | rest => expPartOk rest)

/-- Hexadecimal digit. -/
def isHexDigitJS (c : Char) : Bool :=
  c.isDigit || ('a' ≤ c && c ≤ 'f') || ('A' ≤ c && c ≤ 'F')

/-- Octal digit. -/
def isOctDigitJS (c : Char) : Bool := '0' ≤ c && c ≤ '7'

/-- Binary digit. -/
def isBinDigitJS (c : Char) : Bool := c == '0' || c == '1'

/-- Nonempty digit sequence in a given radix. -/
def radixDigitsOk (p : Char → Bool) (l : List Char) : Bool := !l.isEmpty && l.all p

/-- Whether `s - 0` (that is, ToNumber on the string) yields a number rather
than NaN: the empty (trimmed) string converts to 0, radix-prefixed integers
must be all digits of that radix, otherwise an optional sign followed by
Infinity or a full decimal literal. -/
def numberNotNaN (s : String) : Bool :=
  match jsTrimChars s with
  | [] => true
  | '0' :: 'x' :: r => radixDigitsOk isHexDigitJS r
  | '0' :: 'X' :: r => radixDigitsOk isHexDigitJS r
  | '0' :: 'o' :: r => radixDigitsOk isOctDigitJS r
  | '0' :: 'O' :: r => radixDigitsOk isOctDigitJS r
  | '0' :: 'b' :: r => radixDigitsOk isBinDigitJS r
  | '0' :: 'B' :: r => radixDigitsOk isBinDigitJS r
  | t => dropSign t == "Infinity".data || decLiteralOk (dropSign t)

/-- Line 135: `function isNumber(n) { return !isNaN(parseFloat(n)) && !isNaN(n - 0); }`
applied to string keys. -/
def isNumber (n : String) : Bool := parseFloatNotNaN n && numberNotNaN n

/-- Property read `m[q]` on a JS object: value of the first (unique) entry
with the given key, undefined when absent. -/
def getProp : List (String × JSVal) → String → JSVal
  | [], _ => .undefined
  | (k, v) :: r, q => if k == q then v else getProp r q

/-- Whether a JS object has an own property with the given key. -/
def hasProp : List (String × JSVal) → String → Bool
  | [], _ => false
  | (k, _) :: r, q => k == q || hasProp r q

/-- Property assignment `m[q] = v` on a JS object: updates the existing
entry in place (keeping its position) or appends a new one. This is also
the semantics of object spread followed by an explicit field. -/
def setKey : List (String × JSVal) → String → JSVal → List (String × JSVal)
  | [], q, v => [(q, v)]
  | (k, w) :: r, q, v => if k == q then (k, v) :: r else (k, w) :: setKey r q v

/-- Property presence on an arbitrary JSVal (only objects have the style
properties we track). -/
def jsHas : JSVal → String → Bool
  | .obj m, q => hasProp m q
  | _, _ => false

/-- Property read on an arbitrary JSVal. -/
def jsGet : JSVal → String → JSVal
  | .obj m, q => getProp m q
  | _, _ => .undefined

/-- Array.prototype.indexOf on a list of strings: index of the first
occurrence, -1 when absent. -/
def jsIndexOf : List String → String → Int
  | [], _ => -1
  | a :: r, k =>
    if a == k then 0
    else if jsIndexOf r k == -1 then -1 else jsIndexOf r k + 1

/-- Lines 137-206: property names excluded from the static (component)
bucket. Entries commented out in the source are omitted. -/
def excludePropsForComponent : List String :=
  ["display", "start", "end", "top", "left", "right", "bottom",
   "minWidth", "maxWidth", "minHeight", "maxHeight",
   "margin", "marginVertical", "marginHorizontal", "marginTop", "marginBottom",
   "marginLeft", "marginRight", "marginStart", "marginEnd",
   "padding", "paddingVertical", "paddingHorizontal", "paddingTop", "paddingBottom",
   "paddingLeft", "paddingRight", "paddingStart", "paddingEnd",
   "position", "flexWrap", "flex", "flexGrow", "flexShrink", "flexBasis",
   "alignSelf", "aspectRatio", "zIndex", "direction",
   "transform", "transformMatrix", "decomposedMatrix",
   "scaleX", "scaleY", "rotation", "translateX", "translateY",
   "backfaceVisibility", "backgroundColor",
   "borderColor", "borderTopColor", "borderRightColor", "borderBottomColor",
   "borderLeftColor", "borderStartColor", "borderEndColor",
   "borderRadius", "borderTopLeftRadius", "borderTopRightRadius",
   "borderTopStartRadius", "borderTopEndRadius",
   "borderBottomLeftRadius", "borderBottomRightRadius",
   "borderBottomStartRadius", "borderBottomEndRadius", "borderStyle"]

/-- Lines 208-278: property names included in the fast-driver (native)
bucket. Entries commented out in the source are omitted. -/
def includePropsForNativeStyles : List String :=
  ["display", "width", "height", "start", "end", "top", "left", "right", "bottom",
   "minWidth", "maxWidth", "minHeight", "maxHeight",
   "margin", "marginVertical", "marginHorizontal", "marginTop", "marginBottom",
   "marginLeft", "marginRight", "marginStart", "marginEnd",
   "position", "flexDirection", "flexWrap", "flex", "flexGrow", "flexShrink",
   "flexBasis", "alignSelf", "aspectRatio", "zIndex", "direction", "transform"]

/-- Lines 280-368: property names excluded from the general-driver bucket.
Entries commented out in the source are omitted; in particular width,
height, flex, flexDirection and flexWrap are commented out there. -/
def excludePropsForStyles : List String :=
  ["display", "start", "end", "top", "left", "right", "bottom",
   "minWidth", "maxWidth", "minHeight", "maxHeight",
   "margin", "marginVertical", "marginHorizontal", "marginTop", "marginBottom",
   "marginLeft", "marginRight", "marginStart", "marginEnd",
   "position", "alignSelf", "alignContent", "overflow",
   "flexGrow", "flexShrink", "flexBasis", "aspectRatio", "zIndex", "direction",
   "transform", "transformMatrix", "decomposedMatrix",
   "scaleX", "scaleY", "rotation", "translateX", "translateY", "textAlign"]

/-- Line 97: the fast-driver inclusion predicate
`(key) => includePropsForNativeStyles.indexOf(key) > -1`. -/
def nativeStylesKeyFilter (key : String) : Bool :=
  decide (jsIndexOf includePropsForNativeStyles key > -1)

/-- Line 100: the general-driver predicate
`(key) => excludePropsForStyles.indexOf(key) === -1`. -/
def animatableKeyFilter (key : String) : Bool :=
  decide (jsIndexOf excludePropsForStyles key = -1)

/-- Line 103: the static-bucket predicate
`(key) => excludePropsForComponent.indexOf(key) === -1`. -/
def componentKeyFilter (key : String) : Bool :=
  decide (jsIndexOf excludePropsForComponent key = -1)

/-- Lines 123-128: the keys.forEach loop. Each entry of the object s whose
key is not numeric and passes shouldIncludeKey is assigned into retVal. -/
def filterObjInto (shouldIncludeKey : String → Bool) :
    List (String × JSVal) → List (String × JSVal) → List (String × JSVal)
  | retVal, [] => retVal
  | retVal, (key, v) :: r =>
    filterObjInto shouldIncludeKey
      (if !(isNumber key) && shouldIncludeKey key then setKey retVal key v else retVal) r

/-- Lines 121-130: the body of flattenedStyle.forEach for one entry s.
Falsy entries are skipped; Object.keys of a non-object entry (array,
string, number) yields only numeric index keys, all of which the isNumber
guard drops, so such entries contribute nothing. -/
def entryStep (shouldIncludeKey : String → Bool) (retVal : List (String × JSVal))
    (s : JSVal) : List (String × JSVal) :=
  if truthy s then
    match s with
    | .obj kvs => filterObjInto shouldIncludeKey retVal kvs
    | _ => retVal
  else retVal

/-- The flattenedStyle.forEach loop over all entries, accumulating retVal. -/
def filterEntries (shouldIncludeKey : String → Bool) :
    List (String × JSVal) → List JSVal → List (String × JSVal)
  | retVal, [] => retVal
  | retVal, s :: r => filterEntries shouldIncludeKey (entryStep shouldIncludeKey retVal s) r

/-- Lines 105-133: getFilteredStyle. Falsy styles are returned unchanged;
non-object styles are resolved through the external StyleSheet.flatten
(parameter sheetFlatten) and returned unchanged when that yields a falsy
result; otherwise the (array of) mappings is filtered into a fresh object. -/
def getFilteredStyle (sheetFlatten : JSVal → JSVal) (styles : JSVal)
    (shouldIncludeKey : String → Bool) : JSVal :=
  if truthy styles = false then styles
  else
    let flattenedStyle := if isJsObject styles = false then sheetFlatten styles else styles
    if truthy flattenedStyle = false then styles
    else
      match flattenedStyle with
      | .arr l => .obj (filterEntries shouldIncludeKey [] l)
      | v => .obj (filterEntries shouldIncludeKey [] [v])

/-- Lines 96-97. -/
def getNativeAnimatableStyles (sheetFlatten : JSVal → JSVal) (styles : JSVal) : JSVal :=
  getFilteredStyle sheetFlatten styles nativeStylesKeyFilter

/-- Lines 99-100. -/
def getAnimatableStyles (sheetFlatten : JSVal → JSVal) (styles : JSVal) : JSVal :=
  getFilteredStyle sheetFlatten styles animatableKeyFilter

/-- Lines 102-103. -/
def getComponentStyles (sheetFlatten : JSVal → JSVal) (styles : JSVal) : JSVal :=
  getFilteredStyle sheetFlatten styles componentKeyFilter

/-- Component types: the original component type of the wrapped element,
or an animatable view wrapper produced by createAnimated. Distinct ids
model distinct freshly created wrapper types. -/
inductive CompType where
  | original (id : Nat)
  | animatedView (id : Nat)

/-- Lines 90-94: createAnimated wraps the View primitive through
Animated.createAnimatedComponent. The external factory is opaque to this
module; each invocation yields a fresh wrapper type, modelled by the id. -/
def createAnimated (id : Nat) : CompType := CompType.animatedView id

/-- The input component descriptor: its type, its props object (including
style and children), and the key, ref and onLayout fields read on lines
77-79. Absent fields are JSVal.undefined. -/
structure Component where
  type : CompType
  props : List (String × JSVal)
  key : JSVal
  ref : JSVal
  onLayout : JSVal

/-- React elements as produced by React.createElement: the type, the props
object as passed in, and the children. -/
inductive Element where
  | elem (type : CompType) (props : List (String × JSVal)) (children : List Element)

/-- Type of an element. -/
def Element.type : Element → CompType
  | .elem t _ _ => t

/-- Props object of an element. -/
def Element.props : Element → List (String × JSVal)
  | .elem _ p _ => p

/-- Children of an element. -/
def Element.children : Element → List Element
  | .elem _ _ c => c

/-- First child of an element (the element itself when childless; every
element built by createAnimatedWrapper has exactly one child at each
wrapped level). -/
def firstChild : Element → Element
  | .elem _ _ (c :: _) => c
  | e => e

/-- Lines 39-88: createAnimatedWrapper. Buckets are computed from
component.props.style; the inner element is the original component with
style replaced by the static bucket; the middle element carries the
general-driver bucket, the caller styles and a forced overflow hidden; the
outer element carries the fast-driver bucket, the caller nativeStyles,
collapsable false, and conditionally forwarded key, ref and onLayout. -/
def createAnimatedWrapper (sheetFlatten : JSVal → JSVal) (component : Component)
    (nativeStyles styles : JSVal) (nativeCached cached : Option CompType) : Element :=
  let nativeAnimatedComponent := nativeCached.getD (createAnimated 0)
  let animatedComponent := cached.getD (createAnimated 1)
  let nativeAnimatedStyles := getNativeAnimatableStyles sheetFlatten (getProp component.props "style")
  let animatedStyles := getAnimatableStyles sheetFlatten (getProp component.props "style")
  let componentStyles := getComponentStyles sheetFlatten (getProp component.props "style")
  let innerElement := Element.elem component.type (setKey component.props "style" componentStyles) []
  let animatedElement := Element.elem animatedComponent
    [("style", JSVal.arr [animatedStyles, styles, JSVal.obj [("overflow", JSVal.str "hidden")]])]
    [innerElement]
  let props0 : List (String × JSVal) :=
    [("collapsable", JSVal.bool false),
     ("style", JSVal.arr [nativeAnimatedStyles, nativeStyles])]
  let props1 := if truthy component.key then setKey props0 "key" component.key else props0
  let props2 := if truthy component.ref then setKey props1 "ref" component.ref else props1
  let props3 := if truthy component.onLayout then setKey props2 "onLayout" component.onLayout else props2
  Element.elem nativeAnimatedComponent props3 [animatedElement]

/-- Props object of the outer (fast-driver) wrapper element. -/
def wrapperProps (sheetFlatten : JSVal → JSVal) (component : Component)
    (nativeStyles styles : JSVal) (nativeCached cached : Option CompType) :
    List (String × JSVal) :=
  Element.props (createAnimatedWrapper sheetFlatten component nativeStyles styles nativeCached cached)

/-- The re-created original component at the innermost level of the
wrapper tree. -/
def innerLayer (sheetFlatten : JSVal → JSVal) (component : Component)
    (nativeStyles styles : JSVal) (nativeCached cached : Option CompType) : Element :=
  firstChild (firstChild (createAnimatedWrapper sheetFlatten component nativeStyles styles nativeCached cached))

/-- Whether one forEach entry is a truthy object defining the given key. -/
def entryHasKey (s : JSVal) (q : String) : Bool :=
  truthy s &&
    (match s with
     | .obj kvs => hasProp kvs q
     | _ => false)

/-- Whether the flattened form of a style input defines the given key:
some truthy object entry of the array (or the single mapping itself)
carries it. -/
def flatHasKey (styles : JSVal) (q : String) : Bool :=
  match styles with
  | .arr l => l.any (fun s => entryHasKey s q)
  | v => entryHasKey v q

/-- The transform-affecting property names of the classification tables. -/
def transformProperties : List String :=
  ["transform", "transformMatrix", "decomposedMatrix",
   "scaleX", "scaleY", "rotation", "translateX", "translateY"]

/-- The geometry property names that are present in excludePropsForStyles. -/
def geometryExcludedFromStyles : List String :=
  ["start", "end", "top", "left", "right", "bottom",
   "minWidth", "maxWidth", "minHeight", "maxHeight",
   "margin", "marginVertical", "marginHorizontal", "marginTop", "marginBottom",
   "marginLeft", "marginRight", "marginStart", "marginEnd",
   "position", "alignSelf", "flexGrow", "flexShrink", "flexBasis",
   "aspectRatio", "zIndex", "direction"]

/-- The geometry property names commented out of excludePropsForStyles,
which therefore stay in the general-driver bucket. -/
def retainedInGeneralBucket : List String :=
  ["width", "height", "flex", "flexDirection", "flexWrap"]

/-- A sheetFlatten standing for a StyleSheet with no registered styles:
every lookup of a non-object style input yields undefined. -/
def noFlatten : JSVal → JSVal := fun _ => JSVal.undefined

/-- The always-true key predicate, used to observe raw flattening. -/
def allKeys : String → Bool := fun _ => true

/-- The example style of the claims:
transform, backgroundColor red, flex 1. -/
def exampleStyle : JSVal :=
  JSVal.obj
    [("transform", JSVal.arr [JSVal.obj [("rotate", JSVal.str "90deg")]]),
     ("backgroundColor", JSVal.str "red"),
     ("flex", JSVal.num 1)]

/-- A concrete component carrying the example style. -/
def exampleComponent : Component :=
  { type := CompType.original 0
    props := [("children", JSVal.str "Hello World"), ("style", exampleStyle)]
    key := JSVal.undefined
    ref := JSVal.undefined
    onLayout := JSVal.undefined }

/-- A component whose key is present but falsy (the empty string). -/
def falsyKeyComponent : Component :=
  { type := CompType.original 0
    props := []
    key := JSVal.str ""
    ref := JSVal.undefined
    onLayout := JSVal.undefined }

/-- A component whose key, ref and onLayout are all present but falsy. -/
def falsyFieldsComponent : Component :=
  { type := CompType.original 1
    props := [("style", JSVal.obj [("width", JSVal.num 10)])]
    key := JSVal.str ""
    ref := JSVal.num 0
    onLayout := JSVal.null }

/-- A component whose key, ref and onLayout are all present and truthy. -/
def forwardedComponent : Component :=
  { type := CompType.original 2
    props := [("style", JSVal.obj [("top", JSVal.num 4)])]
    key := JSVal.str "k1"
    ref := JSVal.str "theRef"
    onLayout := JSVal.str "handler"}

/-- A style exercising a transform property, an excluded geometry property
and a retained one at once. -/
def mixedStyle : JSVal :=
  JSVal.obj
    [("transform", JSVal.str "t"), ("top", JSVal.num 1), ("flex", JSVal.num 1)]

/-- Assignment makes the assigned key present and leaves all other key
presences unchanged. -/
theorem hasProp_setKey (m : List (String × JSVal)) (q p : String) (v : JSVal) :
    hasProp (setKey m q v) p = (hasProp m p || q == p) := by
  induction m with
  | nil => simp [setKey, hasProp]
  | cons head t ih =>
    obtain ⟨k, w⟩ := head
    by_cases hk : k = q
    · subst hk
      simp only [setKey, beq_self_eq_true, if_true]
      cases hb : (k == p) <;> simp [hasProp, hb]
    · simp only [setKey, beq_iff_eq, hk, if_false, hasProp, ih, Bool.or_assoc]

/-- Reading back the assigned key yields the assigned value. -/
theorem getProp_setKey_self (m : List (String × JSVal)) (q : String) (v : JSVal) :
    getProp (setKey m q v) q = v := by
  induction m with
  | nil => simp [setKey, getProp]
  | cons head t ih =>
    obtain ⟨k, w⟩ := head
    by_cases hk : k = q
    · subst hk; simp [setKey, getProp]
    · simp [setKey, getProp, hk, ih]

/-- Assignment leaves reads of other keys unchanged. -/
theorem getProp_setKey_ne (m : List (String × JSVal)) (q p : String) (v : JSVal)
    (h : q ≠ p) : getProp (setKey m q v) p = getProp m p := by
  induction m with
  | nil => simp [setKey, getProp, h]
  | cons head t ih =>
    obtain ⟨k, w⟩ := head
    by_cases hk : k = q
    · subst hk; simp [setKey, getProp, h]
    · simp [setKey, getProp, hk, ih]

/-- A key outside the key column of an association list is not a property. -/
theorem hasProp_eq_false_of_not_mem (l : List (String × JSVal)) (q : String)
    (h : q ∉ l.map Prod.fst) : hasProp l q = false := by
  induction l with
  | nil => rfl
  | cons head t ih =>
    obtain ⟨k, w⟩ := head
    simp only [List.map_cons, List.mem_cons, not_or] at h
    simp [hasProp, Ne.symm h.1, ih h.2]

/-- Key presence after the filtering loop over one object: a key is present
afterwards iff it was already accumulated, or it is a non-numeric key of the
object accepted by the predicate. -/
theorem hasProp_filterObjInto (pred : String → Bool) (kvs : List (String × JSVal)) :
    ∀ (acc : List (String × JSVal)) (p : String),
      hasProp (filterObjInto pred acc kvs) p
        = (hasProp acc p || (!(isNumber p) && pred p && hasProp kvs p)) := by
  induction kvs with
  | nil => intro acc p; simp [filterObjInto, hasProp]
  | cons head r ih =>
    intro acc p
    obtain ⟨k, v⟩ := head
    by_cases hkp : k = p
    · subst hkp
      cases hc : (!(isNumber k) && pred k)
      · simp [filterObjInto, hc, ih, hasProp]
      · simp [filterObjInto, hc, ih, hasProp_setKey, hasProp]
    · have hkp' : (k == p) = false := by simp [hkp]
      cases hc : (!(isNumber k) && pred k)
      · simp [filterObjInto, hc, ih, hasProp, hkp']
      · simp [filterObjInto, hc, ih, hasProp_setKey, hasProp, hkp']

/-- The filtering loop never creates a key the object does not define. -/
theorem getProp_filterObjInto_of_not_has (pred : String → Bool)
    (kvs : List (String × JSVal)) :
    ∀ (acc : List (String × JSVal)) (p : String), hasProp kvs p = false →
      getProp (filterObjInto pred acc kvs) p = getProp acc p := by
  induction kvs with
  | nil => intro acc p _; rfl
  | cons head r ih =>
    intro acc p h
    obtain ⟨k, v⟩ := head
    simp only [hasProp, Bool.or_eq_false_iff] at h
    have hk : k ≠ p := by
      intro he
      rw [he] at h
      simp at h
    cases hc : (!(isNumber k) && pred k)
    · simp [filterObjInto, hc, ih _ _ h.2]
    · simp [filterObjInto, hc, ih _ _ h.2, getProp_setKey_ne _ _ _ _ hk]

/-- For a duplicate-free object defining a key that passes the filter, the
filtering loop stores exactly the value the object carries for that key. -/
theorem getProp_filterObjInto_nodup (pred : String → Bool)
    (kvs : List (String × JSVal)) :
    ∀ (acc : List (String × JSVal)) (p : String),
      (kvs.map Prod.fst).Nodup → hasProp kvs p = true →
      (!(isNumber p) && pred p) = true →
      getProp (filterObjInto pred acc kvs) p = getProp kvs p := by
  induction kvs with
  | nil => intro acc p _ h _; simp [hasProp] at h
  | cons head r ih =>
    intro acc p hnd hhas hcp
    obtain ⟨k, v⟩ := head
    simp only [List.map_cons, List.nodup_cons] at hnd
    by_cases hkp : k = p
    · subst hkp
      have hr : hasProp r k = false := hasProp_eq_false_of_not_mem r k hnd.1
      simp only [filterObjInto, hcp, if_true]
      rw [getProp_filterObjInto_of_not_has pred r _ _ hr]
      simp [getProp, getProp_setKey_self]
    · have hkp' : (k == p) = false := by simp [hkp]
      have hhas' : hasProp r p = true := by
        have h2 := hhas
        simp only [hasProp, hkp', Bool.false_or] at h2
        exact h2
      cases hc : (!(isNumber k) && pred k) <;>
        simp [filterObjInto, hc, ih _ _ hnd.2 hhas' hcp, getProp, hkp]

/-- Key presence after the loop over all flattened entries: a key is
present afterwards iff it was already accumulated, or it is non-numeric,
accepted by the predicate, and defined by some truthy object entry. -/
theorem hasProp_filterEntries (pred : String → Bool) (l : List JSVal) :
    ∀ (acc : List (String × JSVal)) (p : String),
      hasProp (filterEntries pred acc l) p
        = (hasProp acc p || (!(isNumber p) && pred p && l.any (fun s => entryHasKey s p))) := by
  induction l with
  | nil => intro acc p; simp [filterEntries]
  | cons s r ih =>
    intro acc p
    cases s <;>
      simp [filterEntries, entryStep, entryHasKey, truthy, ih, hasProp_filterObjInto,
        Bool.and_or_distrib_left, Bool.or_assoc]

/-- jsIndexOf finds members at a nonnegative index and returns -1 exactly
for non-members. -/
theorem jsIndexOf_spec (l : List String) (k : String) :
    (k ∈ l ∧ 0 ≤ jsIndexOf l k) ∨ (k ∉ l ∧ jsIndexOf l k = -1) := by
  induction l with
  | nil => right; simp [jsIndexOf]
  | cons a r ih =>
    by_cases h : a = k
    · left
      refine ⟨by simp [h], ?_⟩
      simp [jsIndexOf, h]
    · have ha : (a == k) = false := by simp [h]
      rcases ih with ⟨h1, h2⟩ | ⟨h1, h2⟩
      · left
        refine ⟨List.mem_cons_of_mem a h1, ?_⟩
        have hne : (jsIndexOf r k == -1) = false := by
          rw [beq_eq_false_iff_ne]
          omega
        simp [jsIndexOf, ha, hne]
        omega
      · right
        constructor
        · intro hm
          rcases List.mem_cons.mp hm with he | hr2
          · exact h he.symm
          · exact h1 hr2
        · simp [jsIndexOf, ha, h2]

/-- Membership in a string list is equivalent to a positive indexOf test. -/
theorem mem_iff_jsIndexOf (l : List String) (k : String) :
    k ∈ l ↔ -1 < jsIndexOf l k := by
  rcases jsIndexOf_spec l k with ⟨h1, h2⟩ | ⟨h1, h2⟩
  · exact iff_of_true h1 (by omega)
  · exact iff_of_false h1 (by omega)

/-- Non-membership in a string list is equivalent to indexOf returning -1. -/
theorem not_mem_iff_jsIndexOf (l : List String) (k : String) :
    k ∉ l ↔ jsIndexOf l k = -1 := by
  rcases jsIndexOf_spec l k with ⟨h1, h2⟩ | ⟨h1, h2⟩
  · exact iff_of_false (by simp [h1]) (by omega)
  · exact iff_of_true h1 h2

/-- The fast-driver predicate accepts exactly the members of the inclusion
list. -/
theorem nativeStylesKeyFilter_eq_true (k : String) :
    nativeStylesKeyFilter k = true ↔ k ∈ includePropsForNativeStyles := by
  simp only [nativeStylesKeyFilter, decide_eq_true_eq]
  exact (mem_iff_jsIndexOf _ k).symm

/-- The general-driver predicate accepts exactly the non-members of the
exclusion list. -/
theorem animatableKeyFilter_eq_true (k : String) :
    animatableKeyFilter k = true ↔ k ∉ excludePropsForStyles := by
  simp only [animatableKeyFilter, decide_eq_true_eq]
  exact (not_mem_iff_jsIndexOf _ k).symm

/-- The static-bucket predicate accepts exactly the non-members of the
exclusion list. -/
theorem componentKeyFilter_eq_true (k : String) :
    componentKeyFilter k = true ↔ k ∉ excludePropsForComponent := by
  simp only [componentKeyFilter, decide_eq_true_eq]
  exact (not_mem_iff_jsIndexOf _ k).symm

/-- Key presence in a filtered bucket, for object or array style inputs:
the key must be non-numeric, accepted by the predicate, and defined by the
flattened input. -/
theorem jsHas_getFilteredStyle (sheetFlatten : JSVal → JSVal) (styles : JSVal)
    (pred : String → Bool) (p : String) (h : isJsObject styles = true) :
    jsHas (getFilteredStyle sheetFlatten styles pred) p
      = (!(isNumber p) && pred p && flatHasKey styles p) := by
  cases styles with
  | arr l =>
    simp [getFilteredStyle, truthy, isJsObject, jsHas, hasProp_filterEntries,
      flatHasKey, hasProp]
  | obj kvs =>
    simp [getFilteredStyle, truthy, isJsObject, jsHas, hasProp_filterEntries,
      flatHasKey, entryHasKey, hasProp]
  | undefined => simp [isJsObject] at h
  | null => simp [isJsObject] at h
  | bool b => simp [isJsObject] at h
  | num n => simp [isJsObject] at h
  | str s => simp [isJsObject] at h

/-- A falsy JSVal is not an object and has no properties. -/
theorem jsHas_eq_false_of_not_truthy (v : JSVal) (p : String) (h : truthy v = false) :
    jsHas v p = false := by
  cases v <;> simp_all [truthy, jsHas]

/-- Conjunction helper: when the guard pair is false the full bucket
condition is false. -/
theorem bucketCond_false (a b c : Bool) (h : (a && b) = false) :
    ((a && b) && c) = false := by
  rw [h]
  rfl

/-- getFilteredStyle written as one nested conditional, convenient for
case analysis. -/
theorem getFilteredStyle_eq_ite (sheetFlatten : JSVal → JSVal) (styles : JSVal)
    (pred : String → Bool) :
    getFilteredStyle sheetFlatten styles pred =
      if truthy styles = false then styles
      else if truthy (if isJsObject styles = false then sheetFlatten styles else styles)
          = false then styles
      else
        match (if isJsObject styles = false then sheetFlatten styles else styles) with
        | .arr l => .obj (filterEntries pred [] l)
        | v => .obj (filterEntries pred [] [v]) := rfl

/-- For a non-object style input, getFilteredStyle either returns the input
unchanged or filters the flattened entry list into a fresh object. -/
theorem getFilteredStyle_not_jsObject (sheetFlatten : JSVal → JSVal)
    (styles : JSVal) (pred : String → Bool) (hobj : isJsObject styles = false) :
    getFilteredStyle sheetFlatten styles pred = styles ∨
    (∃ l, getFilteredStyle sheetFlatten styles pred
        = JSVal.obj (filterEntries pred [] l)) := by
  rw [getFilteredStyle_eq_ite, if_pos hobj]
  by_cases htr : truthy styles = false
  · rw [if_pos htr]
    left
    rfl
  · rw [if_neg htr]
    by_cases hfl : truthy (sheetFlatten styles) = false
    · rw [if_pos hfl]
      left
      rfl
    · rw [if_neg hfl]
      right
      cases hv : sheetFlatten styles with
      | undefined => rw [hv] at hfl; exact absurd rfl hfl
      | null => rw [hv] at hfl; exact absurd rfl hfl
      | bool b => exact ⟨[JSVal.bool b], rfl⟩
      | num n => exact ⟨[JSVal.num n], rfl⟩
      | str s => exact ⟨[JSVal.str s], rfl⟩
      | arr l => exact ⟨l, rfl⟩
      | obj kvs => exact ⟨[JSVal.obj kvs], rfl⟩

/-- A key that is numeric or rejected by the predicate never appears in the
filtered bucket, for any style input whatsoever. -/
theorem jsHas_getFilteredStyle_of_excluded (sheetFlatten : JSVal → JSVal)
    (styles : JSVal) (pred : String → Bool) (p : String)
    (h : (!(isNumber p) && pred p) = false) :
    jsHas (getFilteredStyle sheetFlatten styles pred) p = false := by
  by_cases hobj : isJsObject styles = true
  · rw [jsHas_getFilteredStyle sheetFlatten styles pred p hobj]
    exact bucketCond_false _ _ _ h
  · have hno : isJsObject styles = false := by
      cases hfo : isJsObject styles
      · rfl
      · exact absurd hfo hobj
    rcases getFilteredStyle_not_jsObject sheetFlatten styles pred hno with heq | ⟨l, heq⟩
    · rw [heq]
      cases styles <;> simp_all [isJsObject, jsHas]
    · rw [heq]
      show hasProp (filterEntries pred [] l) p = false
      rw [hasProp_filterEntries]
      show (false || _) = false
      rw [Bool.false_or]
      exact bucketCond_false _ _ _ h

/-- C2: for every non-numeric property key of every flattened style mapping
(object or array style input), the key is in the fast-driver bucket iff it
is a member of includePropsForNativeStyles, in the general-driver bucket iff
it is not a member of excludePropsForStyles, and in the static bucket iff it
is not a member of excludePropsForComponent. -/
theorem c2_bucket_membership_invariant (sheetFlatten : JSVal → JSVal)
    (styles : JSVal) (k : String) (hobj : isJsObject styles = true)
    (hnum : isNumber k = false) (hk : flatHasKey styles k = true) :
    (jsHas (getNativeAnimatableStyles sheetFlatten styles) k = true
        ↔ k ∈ includePropsForNativeStyles) ∧
    (jsHas (getAnimatableStyles sheetFlatten styles) k = true
        ↔ k ∉ excludePropsForStyles) ∧
    (jsHas (getComponentStyles sheetFlatten styles) k = true
        ↔ k ∉ excludePropsForComponent) := by
  refine ⟨?_, ?_, ?_⟩
  · rw [getNativeAnimatableStyles, jsHas_getFilteredStyle _ _ _ _ hobj, hnum, hk]
    simp only [Bool.not_false, Bool.true_and, Bool.and_true]
    exact nativeStylesKeyFilter_eq_true k
  · rw [getAnimatableStyles, jsHas_getFilteredStyle _ _ _ _ hobj, hnum, hk]
    simp only [Bool.not_false, Bool.true_and, Bool.and_true]
    exact animatableKeyFilter_eq_true k
  · rw [getComponentStyles, jsHas_getFilteredStyle _ _ _ _ hobj, hnum, hk]
    simp only [Bool.not_false, Bool.true_and, Bool.and_true]
    exact componentKeyFilter_eq_true k

/-- Witness for C2 at the key backgroundColor of a concrete single-mapping
style: present in the general-driver bucket only. -/
theorem c2_bucket_membership_invariant_witness :
    (jsHas (getNativeAnimatableStyles noFlatten (JSVal.obj [("backgroundColor", JSVal.str "red")]))
        "backgroundColor" = true ↔ "backgroundColor" ∈ includePropsForNativeStyles) ∧
    (jsHas (getAnimatableStyles noFlatten (JSVal.obj [("backgroundColor", JSVal.str "red")]))
        "backgroundColor" = true ↔ "backgroundColor" ∉ excludePropsForStyles) ∧
    (jsHas (getComponentStyles noFlatten (JSVal.obj [("backgroundColor", JSVal.str "red")]))
        "backgroundColor" = true ↔ "backgroundColor" ∉ excludePropsForComponent) :=
  c2_bucket_membership_invariant noFlatten (JSVal.obj [("backgroundColor", JSVal.str "red")])
    "backgroundColor" (by decide) (by decide) (by decide)

/-- C3: for a style input that is an ordered sequence of mappings,
flattening is last-write-wins per key: over the sequence A, B where both
define the key k (and k survives the filter), the bucket carries the value
of B; an interleaved empty mapping or falsy entry does not change the
result. -/
theorem c3_flatten_last_write_wins (sheetFlatten : JSVal → JSVal)
    (pred : String → Bool) (A B : List (String × JSVal)) (k : String)
    (hA : hasProp A k = true) (hB : hasProp B k = true)
    (hnd : (B.map Prod.fst).Nodup) (hnum : isNumber k = false)
    (hp : pred k = true) :
    jsGet (getFilteredStyle sheetFlatten (JSVal.arr [JSVal.obj A, JSVal.obj B]) pred) k
        = getProp B k ∧
    getFilteredStyle sheetFlatten (JSVal.arr [JSVal.obj A, JSVal.obj [], JSVal.obj B]) pred
        = getFilteredStyle sheetFlatten (JSVal.arr [JSVal.obj A, JSVal.obj B]) pred ∧
    getFilteredStyle sheetFlatten (JSVal.arr [JSVal.obj A, JSVal.null, JSVal.obj B]) pred
        = getFilteredStyle sheetFlatten (JSVal.arr [JSVal.obj A, JSVal.obj B]) pred := by
  refine ⟨?_, rfl, rfl⟩
  show getProp (filterObjInto pred (filterObjInto pred [] A) B) k = getProp B k
  exact getProp_filterObjInto_nodup pred B _ k hnd hB (by rw [hnum, hp]; rfl)

/-- Witness for C3 on two concrete mappings both defining the key top. -/
theorem c3_flatten_last_write_wins_witness :
    jsGet (getFilteredStyle noFlatten
        (JSVal.arr [JSVal.obj [("flex", JSVal.num 1), ("top", JSVal.num 2)],
          JSVal.obj [("top", JSVal.num 9)]]) allKeys) "top"
      = getProp [("top", JSVal.num 9)] "top" ∧
    getFilteredStyle noFlatten
        (JSVal.arr [JSVal.obj [("flex", JSVal.num 1), ("top", JSVal.num 2)],
          JSVal.obj [], JSVal.obj [("top", JSVal.num 9)]]) allKeys
      = getFilteredStyle noFlatten
        (JSVal.arr [JSVal.obj [("flex", JSVal.num 1), ("top", JSVal.num 2)],
          JSVal.obj [("top", JSVal.num 9)]]) allKeys ∧
    getFilteredStyle noFlatten
        (JSVal.arr [JSVal.obj [("flex", JSVal.num 1), ("top", JSVal.num 2)],
          JSVal.null, JSVal.obj [("top", JSVal.num 9)]]) allKeys
      = getFilteredStyle noFlatten
        (JSVal.arr [JSVal.obj [("flex", JSVal.num 1), ("top", JSVal.num 2)],
          JSVal.obj [("top", JSVal.num 9)]]) allKeys :=
  c3_flatten_last_write_wins noFlatten allKeys
    [("flex", JSVal.num 1), ("top", JSVal.num 2)] [("top", JSVal.num 9)] "top"
    (by decide) (by decide) (by decide) (by decide) rfl

/-- C4: a key that parses as a pure number is absent from all three bucket
mappings, for every style input. -/
theorem c4_numeric_keys_dropped (sheetFlatten : JSVal → JSVal) (styles : JSVal)
    (k : String) (h : isNumber k = true) :
    jsHas (getNativeAnimatableStyles sheetFlatten styles) k = false ∧
    jsHas (getAnimatableStyles sheetFlatten styles) k = false ∧
    jsHas (getComponentStyles sheetFlatten styles) k = false := by
  refine ⟨?_, ?_, ?_⟩ <;>
    exact jsHas_getFilteredStyle_of_excluded _ _ _ _ (by rw [h]; rfl)

/-- Witness for C4 at the numeric key 0 of a concrete style mapping. -/
theorem c4_numeric_keys_dropped_witness :
    jsHas (getNativeAnimatableStyles noFlatten
        (JSVal.obj [("0", JSVal.num 7), ("width", JSVal.num 3)])) "0" = false ∧
    jsHas (getAnimatableStyles noFlatten
        (JSVal.obj [("0", JSVal.num 7), ("width", JSVal.num 3)])) "0" = false ∧
    jsHas (getComponentStyles noFlatten
        (JSVal.obj [("0", JSVal.num 7), ("width", JSVal.num 3)])) "0" = false :=
  c4_numeric_keys_dropped noFlatten
    (JSVal.obj [("0", JSVal.num 7), ("width", JSVal.num 3)]) "0" (by decide)

/-- C1 (amended): for the example style with transform, backgroundColor and
flex, compose yields a fast-driver bucket with exactly transform and flex, a
general-driver bucket with backgroundColor AND flex (flex is absent from
excludePropsForStyles) but not transform, and an empty static bucket; the
buckets are placed at the corresponding layers of the composed tree. -/
theorem c1_buckets_for_example_style (sheetFlatten : JSVal → JSVal)
    (nativeStyles styles : JSVal) :
    getNativeAnimatableStyles sheetFlatten exampleStyle
      = JSVal.obj [("transform", JSVal.arr [JSVal.obj [("rotate", JSVal.str "90deg")]]),
          ("flex", JSVal.num 1)] ∧
    getAnimatableStyles sheetFlatten exampleStyle
      = JSVal.obj [("backgroundColor", JSVal.str "red"), ("flex", JSVal.num 1)] ∧
    getComponentStyles sheetFlatten exampleStyle = JSVal.obj [] ∧
    getProp (wrapperProps sheetFlatten exampleComponent nativeStyles styles none none) "style"
      = JSVal.arr
          [JSVal.obj [("transform", JSVal.arr [JSVal.obj [("rotate", JSVal.str "90deg")]]),
            ("flex", JSVal.num 1)],
           nativeStyles] ∧
    getProp (Element.props (firstChild
        (createAnimatedWrapper sheetFlatten exampleComponent nativeStyles styles none none))) "style"
      = JSVal.arr
          [JSVal.obj [("backgroundColor", JSVal.str "red"), ("flex", JSVal.num 1)],
           styles, JSVal.obj [("overflow", JSVal.str "hidden")]] ∧
    getProp (Element.props (innerLayer sheetFlatten exampleComponent nativeStyles styles none none)) "style"
      = JSVal.obj [] := by
  refine ⟨?_, ?_, ?_, ?_, ?_, ?_⟩ <;> rfl

/-- C1 counterexample: contrary to the claim, the general-driver bucket of
the example style does contain flex, because flex is not a member of
excludePropsForStyles. -/
theorem c1_general_bucket_contains_flex :
    jsHas (getAnimatableStyles noFlatten exampleStyle) "flex" = true := by
  decide

/-- C5 (amended): getFilteredStyle returns its input unchanged when the
input is falsy and when flattening a non-object input yields a falsy
result; but a truthy input whose flattened form is empty (an empty array,
or an empty mapping) is filtered into a fresh empty object rather than
returned unchanged. -/
theorem c5_passthrough_only_on_falsy (sheetFlatten : JSVal → JSVal)
    (pred : String → Bool) (s1 s2 : JSVal) (h1 : truthy s1 = false)
    (h2 : isJsObject s2 = false) (h3 : truthy s2 = true)
    (h4 : truthy (sheetFlatten s2) = false) :
    getFilteredStyle sheetFlatten s1 pred = s1 ∧
    getFilteredStyle sheetFlatten s2 pred = s2 ∧
    getFilteredStyle sheetFlatten (JSVal.arr []) pred = JSVal.obj [] ∧
    getFilteredStyle sheetFlatten (JSVal.obj []) pred = JSVal.obj [] := by
  refine ⟨?_, ?_, rfl, rfl⟩
  · rw [getFilteredStyle_eq_ite, if_pos h1]
  · have h3' : ¬ truthy s2 = false := by simp [h3]
    rw [getFilteredStyle_eq_ite, if_neg h3', if_pos h2, if_pos h4]

/-- Witness for C5 at null, at an unregistered numeric style id, and at the
empty array and empty object. -/
theorem c5_passthrough_only_on_falsy_witness :
    getFilteredStyle noFlatten JSVal.null allKeys = JSVal.null ∧
    getFilteredStyle noFlatten (JSVal.num 5) allKeys = JSVal.num 5 ∧
    getFilteredStyle noFlatten (JSVal.arr []) allKeys = JSVal.obj [] ∧
    getFilteredStyle noFlatten (JSVal.obj []) allKeys = JSVal.obj [] :=
  c5_passthrough_only_on_falsy noFlatten allKeys JSVal.null (JSVal.num 5)
    rfl rfl (by decide) rfl

/-- C5 counterexample: the empty array flattens to an empty result, yet
getFilteredStyle does not return the original input; it returns a fresh
empty object, a different value. -/
theorem c5_empty_sequence_not_returned_unchanged :
    getFilteredStyle noFlatten (JSVal.arr []) allKeys = JSVal.obj [] ∧
    JSVal.obj [] ≠ JSVal.arr [] :=
  ⟨rfl, fun h => nomatch h⟩

/-- C6: the props of the general-driver (middle) container consist exactly
of a style that is the three-element sequence of the general bucket, the
caller styles, and a final overflow hidden object, forcing clipping last at
this layer. -/
theorem c6_general_layer_style_forces_overflow_hidden (sheetFlatten : JSVal → JSVal)
    (component : Component) (nativeStyles styles : JSVal)
    (nativeCached cached : Option CompType) :
    Element.props (firstChild
        (createAnimatedWrapper sheetFlatten component nativeStyles styles nativeCached cached))
      = [("style",
          JSVal.arr [getAnimatableStyles sheetFlatten (getProp component.props "style"),
            styles, JSVal.obj [("overflow", JSVal.str "hidden")]])] :=
  rfl

/-- C7: the re-created innermost element keeps the original component type
and every prop other than style unchanged (same values, same presence), and
its style prop is exactly the static bucket. -/
theorem c7_inner_element_props_preserved (sheetFlatten : JSVal → JSVal)
    (component : Component) (nativeStyles styles : JSVal)
    (nativeCached cached : Option CompType) (p : String) (hp : p ≠ "style") :
    Element.type (innerLayer sheetFlatten component nativeStyles styles nativeCached cached)
      = component.type ∧
    getProp (Element.props (innerLayer sheetFlatten component nativeStyles styles nativeCached cached)) "style"
      = getComponentStyles sheetFlatten (getProp component.props "style") ∧
    hasProp (Element.props (innerLayer sheetFlatten component nativeStyles styles nativeCached cached)) "style"
      = true ∧
    getProp (Element.props (innerLayer sheetFlatten component nativeStyles styles nativeCached cached)) p
      = getProp component.props p ∧
    hasProp (Element.props (innerLayer sheetFlatten component nativeStyles styles nativeCached cached)) p
      = hasProp component.props p := by
  refine ⟨rfl, ?_, ?_, ?_, ?_⟩
  · show getProp (setKey component.props "style"
        (getComponentStyles sheetFlatten (getProp component.props "style"))) "style"
      = getComponentStyles sheetFlatten (getProp component.props "style")
    exact getProp_setKey_self _ _ _
  · show hasProp (setKey component.props "style"
        (getComponentStyles sheetFlatten (getProp component.props "style"))) "style" = true
    rw [hasProp_setKey]
    simp
  · show getProp (setKey component.props "style"
        (getComponentStyles sheetFlatten (getProp component.props "style"))) p
      = getProp component.props p
    exact getProp_setKey_ne _ _ _ _ (Ne.symm hp)
  · show hasProp (setKey component.props "style"
        (getComponentStyles sheetFlatten (getProp component.props "style"))) p
      = hasProp component.props p
    rw [hasProp_setKey]
    have hsp : ("style" == p) = false := by simp [Ne.symm hp]
    rw [hsp, Bool.or_false]

/-- Witness for C7 at the example component and its children prop. -/
theorem c7_inner_element_props_preserved_witness :
    Element.type (innerLayer noFlatten exampleComponent JSVal.undefined JSVal.undefined none none)
      = exampleComponent.type ∧
    getProp (Element.props (innerLayer noFlatten exampleComponent JSVal.undefined JSVal.undefined none none)) "style"
      = getComponentStyles noFlatten (getProp exampleComponent.props "style") ∧
    hasProp (Element.props (innerLayer noFlatten exampleComponent JSVal.undefined JSVal.undefined none none)) "style"
      = true ∧
    getProp (Element.props (innerLayer noFlatten exampleComponent JSVal.undefined JSVal.undefined none none)) "children"
      = getProp exampleComponent.props "children" ∧
    hasProp (Element.props (innerLayer noFlatten exampleComponent JSVal.undefined JSVal.undefined none none)) "children"
      = hasProp exampleComponent.props "children" :=
  c7_inner_element_props_preserved noFlatten exampleComponent JSVal.undefined JSVal.undefined
    none none "children" (by decide)

/-- C8 (amended): the outer wrapper props consist of collapsable false, the
style pair of fast-driver bucket and caller nativeStyles, and key, ref and
onLayout forwarded iff the corresponding component field is truthy; no
other prop is present, and a non-truthy field leaves no key at all. -/
theorem c8_outer_props_truthy_forwarding (sheetFlatten : JSVal → JSVal)
    (component : Component) (nativeStyles styles : JSVal)
    (nativeCached cached : Option CompType) :
    getProp (wrapperProps sheetFlatten component nativeStyles styles nativeCached cached) "collapsable"
      = JSVal.bool false ∧
    getProp (wrapperProps sheetFlatten component nativeStyles styles nativeCached cached) "style"
      = JSVal.arr [getNativeAnimatableStyles sheetFlatten (getProp component.props "style"),
          nativeStyles] ∧
    hasProp (wrapperProps sheetFlatten component nativeStyles styles nativeCached cached) "key"
      = truthy component.key ∧
    (truthy component.key = true →
      getProp (wrapperProps sheetFlatten component nativeStyles styles nativeCached cached) "key"
        = component.key) ∧
    hasProp (wrapperProps sheetFlatten component nativeStyles styles nativeCached cached) "ref"
      = truthy component.ref ∧
    (truthy component.ref = true →
      getProp (wrapperProps sheetFlatten component nativeStyles styles nativeCached cached) "ref"
        = component.ref) ∧
    hasProp (wrapperProps sheetFlatten component nativeStyles styles nativeCached cached) "onLayout"
      = truthy component.onLayout ∧
    (truthy component.onLayout = true →
      getProp (wrapperProps sheetFlatten component nativeStyles styles nativeCached cached) "onLayout"
        = component.onLayout) ∧
    (∀ p, p ≠ "collapsable" → p ≠ "style" → p ≠ "key" → p ≠ "ref" → p ≠ "onLayout" →
      hasProp (wrapperProps sheetFlatten component nativeStyles styles nativeCached cached) p
        = false) := by
  refine ⟨?_, ?_, ?_, ?_, ?_, ?_, ?_, ?_, ?_⟩
  · cases hk : truthy component.key <;> cases hr : truthy component.ref <;>
      cases ho : truthy component.onLayout <;>
      simp +decide [wrapperProps, createAnimatedWrapper, Element.props, hk, hr, ho,
        hasProp_setKey, getProp_setKey_self, getProp_setKey_ne, hasProp, getProp]
  · cases hk : truthy component.key <;> cases hr : truthy component.ref <;>
      cases ho : truthy component.onLayout <;>
      simp +decide [wrapperProps, createAnimatedWrapper, Element.props, hk, hr, ho,
        hasProp_setKey, getProp_setKey_self, getProp_setKey_ne, hasProp, getProp]
  · cases hk : truthy component.key <;> cases hr : truthy component.ref <;>
      cases ho : truthy component.onLayout <;>
      simp +decide [wrapperProps, createAnimatedWrapper, Element.props, hk, hr, ho,
        hasProp_setKey, getProp_setKey_self, getProp_setKey_ne, hasProp, getProp]
  · cases hk : truthy component.key <;> cases hr : truthy component.ref <;>
      cases ho : truthy component.onLayout <;>
      simp +decide [wrapperProps, createAnimatedWrapper, Element.props, hk, hr, ho,
        hasProp_setKey, getProp_setKey_self, getProp_setKey_ne, hasProp, getProp]
  · cases hk : truthy component.key <;> cases hr : truthy component.ref <;>
      cases ho : truthy component.onLayout <;>
      simp +decide [wrapperProps, createAnimatedWrapper, Element.props, hk, hr, ho,
        hasProp_setKey, getProp_setKey_self, getProp_setKey_ne, hasProp, getProp]
  · cases hk : truthy component.key <;> cases hr : truthy component.ref <;>
      cases ho : truthy component.onLayout <;>
      simp +decide [wrapperProps, createAnimatedWrapper, Element.props, hk, hr, ho,
        hasProp_setKey, getProp_setKey_self, getProp_setKey_ne, hasProp, getProp]
  · cases hk : truthy component.key <;> cases hr : truthy component.ref <;>
      cases ho : truthy component.onLayout <;>
      simp +decide [wrapperProps, createAnimatedWrapper, Element.props, hk, hr, ho,
        hasProp_setKey, getProp_setKey_self, getProp_setKey_ne, hasProp, getProp]
  · cases hk : truthy component.key <;> cases hr : truthy component.ref <;>
      cases ho : truthy component.onLayout <;>
      simp +decide [wrapperProps, createAnimatedWrapper, Element.props, hk, hr, ho,
        hasProp_setKey, getProp_setKey_self, getProp_setKey_ne, hasProp, getProp]
  · intro p hp1 hp2 hp3 hp4 hp5
    cases hk : truthy component.key <;> cases hr : truthy component.ref <;>
      cases ho : truthy component.onLayout <;>
      simp +decide [wrapperProps, createAnimatedWrapper, Element.props, hk, hr, ho,
        hasProp_setKey, hasProp, Ne.symm hp1, Ne.symm hp2, Ne.symm hp3,
        Ne.symm hp4, Ne.symm hp5]

/-- Witness for C8 at a component whose key, ref and onLayout are all
present and truthy, plus a probe prop id that must be absent. -/
theorem c8_outer_props_truthy_forwarding_witness :
    getProp (wrapperProps noFlatten forwardedComponent JSVal.undefined JSVal.undefined none none) "collapsable"
      = JSVal.bool false ∧
    getProp (wrapperProps noFlatten forwardedComponent JSVal.undefined JSVal.undefined none none) "style"
      = JSVal.arr [getNativeAnimatableStyles noFlatten (getProp forwardedComponent.props "style"),
          JSVal.undefined] ∧
    hasProp (wrapperProps noFlatten forwardedComponent JSVal.undefined JSVal.undefined none none) "key"
      = truthy forwardedComponent.key ∧
    getProp (wrapperProps noFlatten forwardedComponent JSVal.undefined JSVal.undefined none none) "key"
      = forwardedComponent.key ∧
    hasProp (wrapperProps noFlatten forwardedComponent JSVal.undefined JSVal.undefined none none) "ref"
      = truthy forwardedComponent.ref ∧
    getProp (wrapperProps noFlatten forwardedComponent JSVal.undefined JSVal.undefined none none) "ref"
      = forwardedComponent.ref ∧
    hasProp (wrapperProps noFlatten forwardedComponent JSVal.undefined JSVal.undefined none none) "onLayout"
      = truthy forwardedComponent.onLayout ∧
    getProp (wrapperProps noFlatten forwardedComponent JSVal.undefined JSVal.undefined none none) "onLayout"
      = forwardedComponent.onLayout ∧
    hasProp (wrapperProps noFlatten forwardedComponent JSVal.undefined JSVal.undefined none none) "id"
      = false := by
  have T := c8_outer_props_truthy_forwarding noFlatten forwardedComponent
    JSVal.undefined JSVal.undefined none none
  exact ⟨T.1, T.2.1, T.2.2.1, T.2.2.2.1 (by decide), T.2.2.2.2.1,
    T.2.2.2.2.2.1 (by decide), T.2.2.2.2.2.2.1, T.2.2.2.2.2.2.2.1 (by decide),
    T.2.2.2.2.2.2.2.2 "id" (by decide) (by decide) (by decide) (by decide) (by decide)⟩

/-- C8 counterexample: a component whose key is present but falsy (the
empty string) does not get its key forwarded, contradicting forwarding iff
the component has the field. -/
theorem c8_falsy_key_not_forwarded :
    falsyKeyComponent.key ≠ JSVal.undefined ∧
    hasProp (wrapperProps noFlatten falsyKeyComponent JSVal.undefined JSVal.undefined none none) "key"
      = false :=
  ⟨(fun h => nomatch h), by decide⟩

/-- C9 (amended): every transform property and every geometry property
listed in excludePropsForStyles is excluded from the general-driver bucket
for every style input, but width, height, flex, flexDirection and flexWrap
are not excluded: a flattened style defining them keeps them in the
general-driver bucket. -/
theorem c9_transform_and_listed_geometry_excluded (sheetFlatten : JSVal → JSVal)
    (styles : JSVal) (k : String) :
    (k ∈ transformProperties → jsHas (getAnimatableStyles sheetFlatten styles) k = false) ∧
    (k ∈ geometryExcludedFromStyles → jsHas (getAnimatableStyles sheetFlatten styles) k = false) ∧
    (k ∈ retainedInGeneralBucket → isJsObject styles = true → flatHasKey styles k = true →
      jsHas (getAnimatableStyles sheetFlatten styles) k = true) := by
  refine ⟨?_, ?_, ?_⟩
  · intro hk
    have hf : animatableKeyFilter k = false := by fin_cases hk <;> decide
    exact jsHas_getFilteredStyle_of_excluded _ _ _ _ (by rw [hf, Bool.and_false])
  · intro hk
    have hf : animatableKeyFilter k = false := by fin_cases hk <;> decide
    exact jsHas_getFilteredStyle_of_excluded _ _ _ _ (by rw [hf, Bool.and_false])
  · intro hk hobj hflat
    rw [getAnimatableStyles, jsHas_getFilteredStyle _ _ _ _ hobj, hflat, Bool.and_true]
    fin_cases hk <;> decide

/-- Witness for C9 on a style carrying transform, top and flex: the first
two are excluded from the general-driver bucket and flex is kept. -/
theorem c9_transform_and_listed_geometry_excluded_witness :
    jsHas (getAnimatableStyles noFlatten mixedStyle) "transform" = false ∧
    jsHas (getAnimatableStyles noFlatten mixedStyle) "top" = false ∧
    jsHas (getAnimatableStyles noFlatten mixedStyle) "flex" = true :=
  ⟨(c9_transform_and_listed_geometry_excluded noFlatten mixedStyle "transform").1 (by decide),
   (c9_transform_and_listed_geometry_excluded noFlatten mixedStyle "top").2.1 (by decide),
   (c9_transform_and_listed_geometry_excluded noFlatten mixedStyle "flex").2.2
     (by decide) (by decide) (by decide)⟩

/-- C9 counterexample: width is a geometry property, yet it is not excluded
from the general-driver bucket. -/
theorem c9_width_in_general_bucket :
    jsHas (getAnimatableStyles noFlatten (JSVal.obj [("width", JSVal.num 5)])) "width"
      = true := by
  decide

/-- C10: key, ref and onLayout are forwarded by truthiness, not presence:
whenever one of these fields is falsy, the composed result is identical to
the result for the component with that field absent, and the outer props
carry no such key. -/
theorem c10_falsy_fields_treated_as_absent (sheetFlatten : JSVal → JSVal)
    (component : Component) (nativeStyles styles : JSVal)
    (nativeCached cached : Option CompType) :
    (truthy component.key = false →
      createAnimatedWrapper sheetFlatten component nativeStyles styles nativeCached cached
        = createAnimatedWrapper sheetFlatten { component with key := JSVal.undefined }
            nativeStyles styles nativeCached cached ∧
      hasProp (wrapperProps sheetFlatten component nativeStyles styles nativeCached cached) "key"
        = false) ∧
    (truthy component.ref = false →
      createAnimatedWrapper sheetFlatten component nativeStyles styles nativeCached cached
        = createAnimatedWrapper sheetFlatten { component with ref := JSVal.undefined }
            nativeStyles styles nativeCached cached ∧
      hasProp (wrapperProps sheetFlatten component nativeStyles styles nativeCached cached) "ref"
        = false) ∧
    (truthy component.onLayout = false →
      createAnimatedWrapper sheetFlatten component nativeStyles styles nativeCached cached
        = createAnimatedWrapper sheetFlatten { component with onLayout := JSVal.undefined }
            nativeStyles styles nativeCached cached ∧
      hasProp (wrapperProps sheetFlatten component nativeStyles styles nativeCached cached) "onLayout"
        = false) := by
  refine ⟨?_, ?_, ?_⟩
  · intro h
    constructor
    · have hu : truthy JSVal.undefined = false := rfl
      simp [createAnimatedWrapper, h, hu]
    · cases hr : truthy component.ref <;> cases ho : truthy component.onLayout <;>
        simp +decide [wrapperProps, createAnimatedWrapper, Element.props, h, hr, ho,
          hasProp_setKey, hasProp]
  · intro h
    constructor
    · have hu : truthy JSVal.undefined = false := rfl
      simp [createAnimatedWrapper, h, hu]
    · cases hk : truthy component.key <;> cases ho : truthy component.onLayout <;>
        simp +decide [wrapperProps, createAnimatedWrapper, Element.props, h, hk, ho,
          hasProp_setKey, hasProp]
  · intro h
    constructor
    · have hu : truthy JSVal.undefined = false := rfl
      simp [createAnimatedWrapper, h, hu]
    · cases hk : truthy component.key <;> cases hr : truthy component.ref <;>
        simp +decide [wrapperProps, createAnimatedWrapper, Element.props, h, hk, hr,
          hasProp_setKey, hasProp]

/-- Witness for C10 at a component whose key, ref and onLayout are all
present but falsy. -/
theorem c10_falsy_fields_treated_as_absent_witness :
    (createAnimatedWrapper noFlatten falsyFieldsComponent JSVal.undefined JSVal.undefined none none
        = createAnimatedWrapper noFlatten { falsyFieldsComponent with key := JSVal.undefined }
            JSVal.undefined JSVal.undefined none none ∧
      hasProp (wrapperProps noFlatten falsyFieldsComponent JSVal.undefined JSVal.undefined none none) "key"
        = false) ∧
    (createAnimatedWrapper noFlatten falsyFieldsComponent JSVal.undefined JSVal.undefined none none
        = createAnimatedWrapper noFlatten { falsyFieldsComponent with ref := JSVal.undefined }
            JSVal.undefined JSVal.undefined none none ∧
      hasProp (wrapperProps noFlatten falsyFieldsComponent JSVal.undefined JSVal.undefined none none) "ref"
        = false) ∧
    (createAnimatedWrapper noFlatten falsyFieldsComponent JSVal.undefined JSVal.undefined none none
        = createAnimatedWrapper noFlatten { falsyFieldsComponent with onLayout := JSVal.undefined }
            JSVal.undefined JSVal.undefined none none ∧
      hasProp (wrapperProps noFlatten falsyFieldsComponent JSVal.undefined JSVal.undefined none none) "onLayout"
        = false) := by
  have T := c10_falsy_fields_treated_as_absent noFlatten falsyFieldsComponent
    JSVal.undefined JSVal.undefined none none
  exact ⟨T.1 (by decide), T.2.1 (by decide), T.2.2 (by decide)⟩

end FluidTransitions
